import Mathlib

/-!
Shallow embedding of the minio web API handler layer (web-handlers.go):
the JWT authentication gate, the RPC method dispatch, the ListObjects
pagination loop, and the streaming error translator.

The storage backend, the configuration store and the token issuer are
external collaborators of this file; they are modelled as explicit
oracles (structures of response functions) threaded through each handler,
and every backend interaction a handler performs is recorded in an
ordered call log, so that "performs no backend call" is the statement
that the log is empty.
-/

namespace Minio

/-- Credential pair held by the configuration store
(fields as in the repository type credential). -/
structure credential where
  AccessKeyID : String
  SecretAccessKey : String
deriving DecidableEq, Repr

/-- Model of a presented JWT bearer token, abstracted to the three facts
the verification path inspects: whether the declared signing algorithm is
in the HMAC family (the key function in isJWTReqAuthenticated and
Download rejects every other method), whether the signature verifies
under the current shared HMAC secret, and whether the standard claims
(expiry) hold. -/
structure JWTTokenData where
  algIsHMAC : Bool
  sigValid : Bool
  claimsValid : Bool
deriving DecidableEq, Repr

/-- Model of an incoming RPC request: only the header-embedded bearer
token is consulted by the handlers (none = no parseable token present). -/
structure Request where
  headerToken : Option JWTTokenData
deriving DecidableEq, Repr

/-- Result of jwtgo parsing with the HMAC-only key function: the parse
errors out when no token is present, when the key function rejects a
non-HMAC signing method, or when the signature fails; token.Valid then
additionally requires the claims to hold.  All failures collapse to
false. -/
def parseTokenValid : Option JWTTokenData → Bool
  | none => false
  | some t => t.algIsHMAC && t.sigValid && t.claimsValid

/-- isJWTReqAuthenticated: validates the header-embedded token with the
HMAC-only key function (web-handlers.go lines 40-52). -/
def isJWTReqAuthenticated (r : Request) : Bool :=
  parseTokenValid r.headerToken

/-- Go path.Base: returns the last element of the path after stripping
trailing slashes; "" gives ".", an all-slash path gives "/". -/
def pathBase (s : String) : String :=
  if s = "" then "." else
    let cs := (s.toList.reverse.dropWhile (fun c => c = '/')).reverse
    let last := (cs.reverse.takeWhile (fun c => c ≠ '/')).reverse
    if last = [] then "/" else String.mk last

/-- Modelled from the spec: the reserved internal bucket constant
(reservedBucket, defined outside web-handlers.go); ListBuckets excludes
exactly this one bucket, matched by its base path segment. -/
def reservedBucket : String := "/minio"

/-- Modelled from the spec: the UI-version compatibility stamp constant
(miniobrowser.UIVersion, an external collaborator); every successful
reply carries it.  Its concrete value is irrelevant to the handlers. -/
def UIVersion : String := "2016-04-01T00:00:00Z"

/-- API error codes used by writeWebErrorResponse
(the codes named in web-handlers.go lines 398-442). -/
inductive APIErrorCode where
  | ErrRootPathFull
  | ErrNoSuchBucket
  | ErrInvalidBucketName
  | ErrBadDigest
  | ErrIncompleteBody
  | ErrObjectExistsAsPrefix
  | ErrNoSuchKey
  | ErrInternalError
deriving DecidableEq, Repr

/-- An API error: HTTP status code plus human-readable description. -/
structure APIError where
  httpStatusCode : Nat
  description : String
deriving DecidableEq, Repr

/-- Modelled from the spec: getAPIError (defined outside
web-handlers.go) maps each code to its fixed status/description pair;
the spec assigns resource-exhausted, not-found, bad-request, conflict
and internal-error status classes per backend condition. -/
def getAPIError : APIErrorCode → APIError
  | .ErrRootPathFull => ⟨507, "Root path has reached its storage capacity."⟩
  | .ErrNoSuchBucket => ⟨404, "The specified bucket does not exist."⟩
  | .ErrInvalidBucketName => ⟨400, "The specified bucket is not valid."⟩
  | .ErrBadDigest => ⟨400, "The Content-Md5 you specified did not match what we received."⟩
  | .ErrIncompleteBody => ⟨400, "You did not provide the number of bytes specified by the Content-Length HTTP header."⟩
  | .ErrObjectExistsAsPrefix => ⟨409, "An object already exists as your prefix."⟩
  | .ErrNoSuchKey => ⟨404, "The specified key does not exist."⟩
  | .ErrInternalError => ⟨500, "We encountered an internal error, please try again."⟩

/-- Backend (storage layer) error values as seen by the streaming
handlers: the fs error variants matched by the type switch in
writeWebErrorResponse, the sentinel errInvalidToken error value, and
other for any unrecognized Go error. -/
inductive BackendErr where
  | RootPathFull
  | BucketNotFound
  | BucketNameInvalid
  | BadDigest
  | IncompleteBody
  | ObjectExistsAsPrefix
  | ObjectNotFound
  | ObjectNameInvalid
  | errInvalidToken
  | other (msg : String)
deriving DecidableEq, Repr

/-- Modelled from the spec: the message of the errInvalidToken sentinel
(defined outside web-handlers.go); the handlers write it verbatim as the
body of the fixed forbidden response. -/
def errInvalidTokenMsg : String := "Invalid token"

/-- An HTTP response as written by the streaming handlers: the status
code set by WriteHeader and the body written afterwards. -/
structure HttpResponse where
  status : Nat
  body : String
deriving DecidableEq, Repr

/-- writeWebErrorResponse (web-handlers.go lines 398-442): the
errInvalidToken identity check comes before the type switch; each fs
variant selects its API error code; the default case is
ErrInternalError. -/
def writeWebErrorResponse : BackendErr → HttpResponse
  | .errInvalidToken => ⟨403, errInvalidTokenMsg⟩
  | .RootPathFull =>
      let a := getAPIError .ErrRootPathFull; ⟨a.httpStatusCode, a.description⟩
  | .BucketNotFound =>
      let a := getAPIError .ErrNoSuchBucket; ⟨a.httpStatusCode, a.description⟩
  | .BucketNameInvalid =>
      let a := getAPIError .ErrInvalidBucketName; ⟨a.httpStatusCode, a.description⟩
  | .BadDigest =>
      let a := getAPIError .ErrBadDigest; ⟨a.httpStatusCode, a.description⟩
  | .IncompleteBody =>
      let a := getAPIError .ErrIncompleteBody; ⟨a.httpStatusCode, a.description⟩
  | .ObjectExistsAsPrefix =>
      let a := getAPIError .ErrObjectExistsAsPrefix; ⟨a.httpStatusCode, a.description⟩
  | .ObjectNotFound =>
      let a := getAPIError .ErrNoSuchKey; ⟨a.httpStatusCode, a.description⟩
  | .ObjectNameInvalid =>
      let a := getAPIError .ErrNoSuchKey; ⟨a.httpStatusCode, a.description⟩
  | .other _ =>
      let a := getAPIError .ErrInternalError; ⟨a.httpStatusCode, a.description⟩

/-- The declared backend error variants of the type switch, in source
order (everything except the errInvalidToken sentinel and the default
case). -/
def declaredBackendVariants : List BackendErr :=
  [ .RootPathFull, .BucketNotFound, .BucketNameInvalid, .BadDigest,
    .IncompleteBody, .ObjectExistsAsPrefix, .ObjectNotFound, .ObjectNameInvalid ]

/-- Disk capacity/usage statistics (pkg disk.Info, external). -/
structure DiskInfoData where
  Total : Nat
  Free : Nat
deriving DecidableEq, Repr

/-- Backend bucket metadata (fs BucketMetadata: Name, Created). -/
structure FSBucketInfo where
  Name : String
  Created : Nat
deriving DecidableEq, Repr

/-- Modelled from the spec: backend object metadata as the fs layer
returns it; the spec data model gives key, lastModified, size and a
contentType for each object (the handler reads Name, ModifiedTime and
Size). -/
structure FSObjectInfo where
  Name : String
  ModifiedTime : Nat
  Size : Int
  ContentType : String
deriving DecidableEq, Repr

/-- One page of a backend listing (fs ListObjectsResult): the truncation
flag, the continuation marker for the next page, object entries and
common-path groupings. -/
structure ListObjectsResult where
  IsTruncated : Bool
  NextMarker : String
  Objects : List FSObjectInfo
  Prefixes : List String
deriving DecidableEq, Repr

/-- Record of one backend interaction (filesystem, credential store or
token issuer), appended to the call log in the order the handler
performs it. -/
inductive BackendCall where
  | fsDiskInfo
  | fsMakeBucket (bucket : String)
  | fsListBuckets
  | fsListObjects (bucket pre marker delim : String) (maxKeys : Nat)
  | fsDeleteObject (bucket object : String)
  | fsCreateObject (bucket object : String)
  | fsGetObject (bucket object : String)
  | configSetCredential (c : credential)
  | configSave
  | configGetCredential
  | jwtAuthenticate (user pass : String)
  | jwtGenerateToken (subject : String)
  | genAccessKeys
deriving DecidableEq, Repr

/-- Oracle for the storage backend (web.Filesystem): each field gives
the answer the backend would return to the corresponding call.  Errors
surfaced to RPC handlers are message strings (Go e.Cause.Error());
streaming handlers receive typed BackendErr values (Go ToGoError). -/
structure Filesystem where
  diskInfoRes : Except String DiskInfoData
  makeBucketRes : String → Option String
  listBucketsRes : Except String (List FSBucketInfo)
  listObjectsPage : String → String → String → Except String ListObjectsResult
  deleteObjectRes : String → String → Option String
  createObjectRes : String → String → Except BackendErr Unit
  getObjectRes : String → String → Except BackendErr String

/-- The configuration store (serverConfig): the active in-memory
credential, whether Save to stable storage succeeds, and the error
message it reports when it fails. -/
structure ConfigStore where
  cred : credential
  saveOk : Bool
  saveErr : String

/-- Modelled from the spec: the token collaborator authenticate
(initJWT plus Authenticate, defined outside web-handlers.go) checks a
username/password pair against the active credential pair. -/
def jwtAuthenticate (c : credential) (user pass : String) : Bool :=
  user = c.AccessKeyID && pass = c.SecretAccessKey

/-- Message-only RPC error envelope (json2.Error). -/
structure Json2Error where
  Message : String
deriving DecidableEq, Repr

/-- The fixed unauthorized RPC error every gated method returns. -/
def unauthorizedError : Json2Error := ⟨"Unauthorized request"⟩

/-- Ambient process/OS introspection data used only by ServerInfo
(hostname, memory statistics, platform and runtime strings); reading
these is not a backend call. -/
structure SysInfo where
  minioVersion : String
  mem : String
  platform : String
  goruntime : String

/-- ServerInfoRep reply structure. -/
structure ServerInfoRep where
  MinioVersion : String
  MinioMemory : String
  MinioPlatform : String
  MinioRuntime : String
  UIVersion : String
deriving DecidableEq, Repr

/-- ServerInfo handler (web-handlers.go lines 74-100): gate on the
token, then report process identity from ambient system data. -/
def ServerInfo (r : Request) (sys : SysInfo) :
    Except Json2Error ServerInfoRep × List BackendCall :=
  if isJWTReqAuthenticated r = false then (.error unauthorizedError, [])
  else
    (.ok ⟨sys.minioVersion, sys.mem, sys.platform, sys.goruntime, UIVersion⟩, [])

/-- DiskInfoRep reply structure. -/
structure DiskInfoRep where
  DiskInfo : DiskInfoData
  UIVersion : String
deriving DecidableEq, Repr

/-- DiskInfo handler (lines 109-120): gate, then one disk statistics
query on the filesystem root. -/
def DiskInfo (r : Request) (fs : Filesystem) :
    Except Json2Error DiskInfoRep × List BackendCall :=
  if isJWTReqAuthenticated r = false then (.error unauthorizedError, [])
  else
    match fs.diskInfoRes with
    | .error msg => (.error ⟨msg⟩, [.fsDiskInfo])
    | .ok info => (.ok ⟨info, UIVersion⟩, [.fsDiskInfo])

/-- GenericRep reply structure (success/failure calls). -/
structure GenericRep where
  UIVersion : String
deriving DecidableEq, Repr

/-- MakeBucketArgs. -/
structure MakeBucketArgs where
  BucketName : String
deriving DecidableEq, Repr

/-- MakeBucket handler (lines 128-138): gate, then one bucket creation
call. -/
def MakeBucket (r : Request) (fs : Filesystem) (args : MakeBucketArgs) :
    Except Json2Error GenericRep × List BackendCall :=
  if isJWTReqAuthenticated r = false then (.error unauthorizedError, [])
  else
    match fs.makeBucketRes args.BucketName with
    | some msg => (.error ⟨msg⟩, [.fsMakeBucket args.BucketName])
    | none => (.ok ⟨UIVersion⟩, [.fsMakeBucket args.BucketName])

/-- BucketInfo reply entry: name and creation date. -/
structure BucketInfo where
  Name : String
  CreationDate : Nat
deriving DecidableEq, Repr

/-- ListBucketsRep reply structure. -/
structure ListBucketsRep where
  Buckets : List BucketInfo
  UIVersion : String
deriving DecidableEq, Repr

/-- ListBuckets handler (lines 155-174): gate, one backend bucket
listing, then keep every bucket whose name differs from the base path
segment of the reserved bucket. -/
def ListBuckets (r : Request) (fs : Filesystem) :
    Except Json2Error ListBucketsRep × List BackendCall :=
  if isJWTReqAuthenticated r = false then (.error unauthorizedError, [])
  else
    match fs.listBucketsRes with
    | .error msg => (.error ⟨msg⟩, [.fsListBuckets])
    | .ok buckets =>
        (.ok ⟨(buckets.filter (fun b => b.Name ≠ pathBase reservedBucket)).map
            (fun b => ⟨b.Name, b.Created⟩), UIVersion⟩,
          [.fsListBuckets])

/-- ListObjectsArgs (Go fields BucketName and Prefix; the second field
is named PrefixStr here). -/
structure ListObjectsArgs where
  BucketName : String
  PrefixStr : String
deriving DecidableEq, Repr

/-- ObjectInfo reply entry: key, last-modified time, size and content
type (zero values: 0, 0, ""). -/
structure ObjectInfo where
  Key : String
  LastModified : Nat
  Size : Int
  ContentType : String
deriving DecidableEq, Repr

/-- ListObjectsRep reply structure. -/
structure ListObjectsRep where
  Objects : List ObjectInfo
  UIVersion : String
deriving DecidableEq, Repr

/-- The reply entries one loop iteration appends for a page lo (lines
212-223): one entry per backend object populating Key, LastModified and
Size, then one entry per common-path grouping populating only Key. -/
def pageEntries (lo : ListObjectsResult) : List ObjectInfo :=
  lo.Objects.map (fun o => ⟨o.Name, o.ModifiedTime, o.Size, ""⟩) ++
    lo.Prefixes.map (fun p => ⟨p, 0, 0, ""⟩)

/-- The pagination loop of ListObjects (lines 206-227), with explicit
fuel standing for the number of iterations the Go for-loop is allowed;
none means the fuel ran out before the loop exited on its own.  Each
iteration requests one page at the current marker with delimiter "/" and
page size 1000, logs the call, appends the page entries, then either
recurses on the returned NextMarker (page truncated) or stops. -/
def listObjectsLoopFuel (fs : Filesystem) (bucket pre : String) :
    Nat → String → List ObjectInfo → List BackendCall →
    Option (Except Json2Error (List ObjectInfo) × List BackendCall)
  | 0, _, _, _ => none
  | fuel + 1, marker, acc, calls =>
    let calls := calls ++ [.fsListObjects bucket pre marker "/" 1000]
    match fs.listObjectsPage bucket pre marker with
    | .error msg => some (.error ⟨msg⟩, calls)
    | .ok lo =>
        let acc := acc ++ pageEntries lo
        if lo.IsTruncated then
          listObjectsLoopFuel fs bucket pre fuel lo.NextMarker acc calls
        else
          some (.ok acc, calls)

/-- ListObjects handler (lines 201-230): marker starts at "", the gate
comes before the loop, and the loop accumulates every page into one flat
reply. -/
def ListObjects (r : Request) (fs : Filesystem) (args : ListObjectsArgs)
    (fuel : Nat) :
    Option (Except Json2Error ListObjectsRep × List BackendCall) :=
  if isJWTReqAuthenticated r = false then some (.error unauthorizedError, [])
  else
    match listObjectsLoopFuel fs args.BucketName args.PrefixStr fuel "" [] [] with
    | none => none
    | some (.error e, calls) => some (.error e, calls)
    | some (.ok objs, calls) => some (.ok ⟨objs, UIVersion⟩, calls)

/-- RemoveObjectArgs (TargetHost is unused by the handler). -/
structure RemoveObjectArgs where
  TargetHost : String
  BucketName : String
  ObjectName : String
deriving DecidableEq, Repr

/-- RemoveObject handler (lines 240-250): gate, then one delete call. -/
def RemoveObject (r : Request) (fs : Filesystem) (args : RemoveObjectArgs) :
    Except Json2Error GenericRep × List BackendCall :=
  if isJWTReqAuthenticated r = false then (.error unauthorizedError, [])
  else
    match fs.deleteObjectRes args.BucketName args.ObjectName with
    | some msg => (.error ⟨msg⟩, [.fsDeleteObject args.BucketName args.ObjectName])
    | none => (.ok ⟨UIVersion⟩, [.fsDeleteObject args.BucketName args.ObjectName])

/-- GenerateAuthReply reply structure. -/
structure GenerateAuthReply where
  AccessKey : String
  SecretKey : String
  UIVersion : String
deriving DecidableEq, Repr

/-- GenerateAuth handler (lines 286-295): gate, then one fresh random
credential generation (mustGenAccessKeys, modelled as the oracle value
genKeys); the pair is neither persisted nor activated. -/
def GenerateAuth (r : Request) (genKeys : credential) :
    Except Json2Error GenerateAuthReply × List BackendCall :=
  if isJWTReqAuthenticated r = false then (.error unauthorizedError, [])
  else
    (.ok ⟨genKeys.AccessKeyID, genKeys.SecretAccessKey, UIVersion⟩,
      [.genAccessKeys])

/-- SetAuthArgs. -/
structure SetAuthArgs where
  AccessKey : String
  SecretKey : String
deriving DecidableEq, Repr

/-- SetAuthReply reply structure. -/
structure SetAuthReply where
  Token : String
  UIVersion : String
deriving DecidableEq, Repr

/-- SetAuth handler (lines 310-337): gate; reject an empty access key,
then an empty secret key, both before touching the store; otherwise set
the credential in memory, save the configuration (the in-memory
credential stays set even if the save fails), re-authenticate with the
new pair, and issue a token bound to the new access key (the token
issuer genToken is an external fallible oracle).  Returns the reply or
error, the configuration store after the call, and the call log. -/
def SetAuth (r : Request) (cfg : ConfigStore)
    (genToken : String → Except String String) (args : SetAuthArgs) :
    Except Json2Error SetAuthReply × ConfigStore × List BackendCall :=
  if isJWTReqAuthenticated r = false then (.error unauthorizedError, cfg, [])
  else if args.AccessKey = "" then
    (.error ⟨"Empty access key not allowed"⟩, cfg, [])
  else if args.SecretKey = "" then
    (.error ⟨"Empty secret key not allowed"⟩, cfg, [])
  else
    let cred : credential := ⟨args.AccessKey, args.SecretKey⟩
    let cfg1 : ConfigStore := { cfg with cred := cred }
    let calls : List BackendCall := [.configSetCredential cred, .configSave]
    if cfg1.saveOk = false then (.error ⟨cfg1.saveErr⟩, cfg1, calls)
    else
      let calls := calls ++ [.jwtAuthenticate args.AccessKey args.SecretKey]
      if jwtAuthenticate cfg1.cred args.AccessKey args.SecretKey = false then
        (.error ⟨"Invalid credentials"⟩, cfg1, calls)
      else
        let calls := calls ++ [.jwtGenerateToken args.AccessKey]
        match genToken args.AccessKey with
        | .error msg => (.error ⟨msg⟩, cfg1, calls)
        | .ok tok => (.ok ⟨tok, UIVersion⟩, cfg1, calls)

/-- GetAuthReply reply structure. -/
structure GetAuthReply where
  AccessKey : String
  SecretKey : String
  UIVersion : String
deriving DecidableEq, Repr

/-- GetAuth handler (lines 347-356): gate, then read the active
credential pair from the configuration store. -/
def GetAuth (r : Request) (cfg : ConfigStore) :
    Except Json2Error GetAuthReply × List BackendCall :=
  if isJWTReqAuthenticated r = false then (.error unauthorizedError, [])
  else
    (.ok ⟨cfg.cred.AccessKeyID, cfg.cred.SecretAccessKey, UIVersion⟩,
      [.configGetCredential])

/-- Upload request: header-embedded token plus the bucket/object route
variables. -/
structure UploadReq where
  headerToken : Option JWTTokenData
  bucket : String
  object : String

/-- Upload handler (lines 359-370): header-token gate via
isJWTReqAuthenticated; invalid token writes the fixed errInvalidToken
response with no backend call; otherwise one create-object call whose
failure goes through the error translator (success writes nothing,
modelled as status 200 with empty body). -/
def Upload (req : UploadReq) (fs : Filesystem) :
    HttpResponse × List BackendCall :=
  if isJWTReqAuthenticated ⟨req.headerToken⟩ = false then
    (writeWebErrorResponse .errInvalidToken, [])
  else
    match fs.createObjectRes req.bucket req.object with
    | .error e =>
        (writeWebErrorResponse e, [.fsCreateObject req.bucket req.object])
    | .ok _ => (⟨200, ""⟩, [.fsCreateObject req.bucket req.object])

/-- Download request: the token arrives as the query parameter, not in a
header. -/
structure DownloadReq where
  queryToken : Option JWTTokenData
  bucket : String
  object : String

/-- Download response: the Content-Disposition header (when set), the
status and the body. -/
structure DownloadResp where
  contentDisposition : Option String
  status : Nat
  body : String
deriving DecidableEq, Repr

/-- Download handler (lines 373-395): parses the query-parameter token
with the same HMAC-only key function; failure or an invalid token writes
the fixed errInvalidToken response before any backend call; otherwise
sets the attachment filename to the base path segment of the object name
and streams the object, translating any backend failure. -/
def Download (req : DownloadReq) (fs : Filesystem) :
    DownloadResp × List BackendCall :=
  if parseTokenValid req.queryToken = false then
    let resp := writeWebErrorResponse .errInvalidToken
    (⟨none, resp.status, resp.body⟩, [])
  else
    let cd := "attachment; filename=\"" ++ pathBase req.object ++ "\""
    match fs.getObjectRes req.bucket req.object with
    | .ok content =>
        (⟨some cd, 200, content⟩, [.fsGetObject req.bucket req.object])
    | .error e =>
        let resp := writeWebErrorResponse e
        (⟨some cd, resp.status, resp.body⟩, [.fsGetObject req.bucket req.object])

/-- Marker the next iteration uses after requesting the page at marker m
(the page's NextMarker; the error case is irrelevant since the loop then
aborts). -/
def nextMarkerAt (fs : Filesystem) (bucket pre m : String) : String :=
  match fs.listObjectsPage bucket pre m with
  | .ok lo => lo.NextMarker
  | .error _ => m

/-- The marker presented at the i-th loop iteration when the loop starts
at marker m: the continuation-marker chain. -/
def chainFrom (fs : Filesystem) (bucket pre m : String) : Nat → String
  | 0 => m
  | n + 1 => nextMarkerAt fs bucket pre (chainFrom fs bucket pre m n)

/-- Whether the loop continues past the page at marker m: the page
exists and reports IsTruncated. -/
def continuesAt (fs : Filesystem) (bucket pre m : String) : Bool :=
  match fs.listObjectsPage bucket pre m with
  | .ok lo => lo.IsTruncated
  | .error _ => false

/-- The reply entries contributed by the page at marker m (empty when
the backend errors there, since the loop then aborts). -/
def pageEntriesAt (fs : Filesystem) (bucket pre m : String) : List ObjectInfo :=
  match fs.listObjectsPage bucket pre m with
  | .ok lo => pageEntries lo
  | .error _ => []

/-- Call log of a loop run of n+1 iterations starting at marker m. -/
def loopCalls (fs : Filesystem) (bucket pre : String) :
    Nat → String → List BackendCall
  | 0, m => [.fsListObjects bucket pre m "/" 1000]
  | n + 1, m =>
      .fsListObjects bucket pre m "/" 1000 ::
        loopCalls fs bucket pre n (nextMarkerAt fs bucket pre m)

/-- Outcome of a loop run of n+1 iterations starting at marker m with
accumulator acc. -/
def loopResult (fs : Filesystem) (bucket pre : String) :
    Nat → String → List ObjectInfo → Except Json2Error (List ObjectInfo)
  | 0, m, acc =>
      match fs.listObjectsPage bucket pre m with
      | .error msg => .error ⟨msg⟩
      | .ok lo => .ok (acc ++ pageEntries lo)
  | n + 1, m, acc =>
      match fs.listObjectsPage bucket pre m with
      | .error msg => .error ⟨msg⟩
      | .ok lo => loopResult fs bucket pre n lo.NextMarker (acc ++ pageEntries lo)

/-- Concatenation of the page entries over n+1 chained pages starting at
marker m, in the order pagination returns them. -/
def entriesConcat (fs : Filesystem) (bucket pre : String) :
    Nat → String → List ObjectInfo
  | 0, m => pageEntriesAt fs bucket pre m
  | n + 1, m =>
      pageEntriesAt fs bucket pre m ++
        entriesConcat fs bucket pre n (nextMarkerAt fs bucket pre m)

lemma chainFrom_succ_shift (fs : Filesystem) (bucket pre : String) :
    ∀ (n : Nat) (m : String),
      chainFrom fs bucket pre m (n + 1) =
        chainFrom fs bucket pre (nextMarkerAt fs bucket pre m) n := by
  intro n
  induction n with
  | zero => intro m; rfl
  | succ k ih =>
      intro m
      show nextMarkerAt fs bucket pre (chainFrom fs bucket pre m (k + 1)) = _
      rw [ih m]
      rfl

lemma listObjectsLoopFuel_spec (fs : Filesystem) (bucket pre : String) :
    ∀ (n : Nat) (m : String) (acc : List ObjectInfo) (calls : List BackendCall)
      (fuel : Nat),
      (∀ i, i < n →
        continuesAt fs bucket pre (chainFrom fs bucket pre m i) = true) →
      continuesAt fs bucket pre (chainFrom fs bucket pre m n) = false →
      n < fuel →
      listObjectsLoopFuel fs bucket pre fuel m acc calls =
        some (loopResult fs bucket pre n m acc,
          calls ++ loopCalls fs bucket pre n m) := by
  intro n
  induction n with
  | zero =>
      intro m acc calls fuel _ hstop hfuel
      obtain ⟨k, rfl⟩ : ∃ k, fuel = k + 1 := ⟨fuel - 1, by omega⟩
      cases heq : fs.listObjectsPage bucket pre m with
      | error msg =>
          simp [listObjectsLoopFuel, heq, loopResult, loopCalls]
      | ok lo =>
          have htr : lo.IsTruncated = false := by
            have h := hstop
            simpa [continuesAt, chainFrom, heq] using h
          simp [listObjectsLoopFuel, heq, htr, loopResult, loopCalls]
  | succ k ih =>
      intro m acc calls fuel hcont hstop hfuel
      obtain ⟨f1, rfl⟩ : ∃ f1, fuel = f1 + 1 := ⟨fuel - 1, by omega⟩
      have h0 : continuesAt fs bucket pre m = true := by
        have h := hcont 0 (by omega)
        simpa [chainFrom] using h
      cases heq : fs.listObjectsPage bucket pre m with
      | error msg => simp [continuesAt, heq] at h0
      | ok lo =>
          have htr : lo.IsTruncated = true := by
            simpa [continuesAt, heq] using h0
          have hnm : nextMarkerAt fs bucket pre m = lo.NextMarker := by
            simp [nextMarkerAt, heq]
          have ihstep := ih lo.NextMarker (acc ++ pageEntries lo)
            (calls ++ [BackendCall.fsListObjects bucket pre m "/" 1000]) f1
            (fun i hi => by
              have h := hcont (i + 1) (by omega)
              rwa [chainFrom_succ_shift, hnm] at h)
            (by
              have h := hstop
              rwa [chainFrom_succ_shift, hnm] at h)
            (by omega)
          calc listObjectsLoopFuel fs bucket pre (f1 + 1) m acc calls
              = listObjectsLoopFuel fs bucket pre f1 lo.NextMarker
                  (acc ++ pageEntries lo)
                  (calls ++ [BackendCall.fsListObjects bucket pre m "/" 1000]) := by
                simp [listObjectsLoopFuel, heq, htr]
            _ = some (loopResult fs bucket pre k lo.NextMarker (acc ++ pageEntries lo),
                  (calls ++ [BackendCall.fsListObjects bucket pre m "/" 1000]) ++
                    loopCalls fs bucket pre k lo.NextMarker) := ihstep
            _ = some (loopResult fs bucket pre (k + 1) m acc,
                  calls ++ loopCalls fs bucket pre (k + 1) m) := by
                simp [loopResult, loopCalls, heq, hnm, List.append_assoc]

lemma loopCalls_eq_map (fs : Filesystem) (bucket pre : String) :
    ∀ (n : Nat) (m : String),
      loopCalls fs bucket pre n m =
        (List.range (n + 1)).map
          (fun i => BackendCall.fsListObjects bucket pre
            (chainFrom fs bucket pre m i) "/" 1000) := by
  intro n
  induction n with
  | zero =>
      intro m
      simp [loopCalls, chainFrom, List.range_succ]
  | succ k ih =>
      intro m
      have hfun :
          ((fun i => BackendCall.fsListObjects bucket pre
              (chainFrom fs bucket pre m i) "/" 1000) ∘ Nat.succ) =
            (fun i => BackendCall.fsListObjects bucket pre
              (chainFrom fs bucket pre (nextMarkerAt fs bucket pre m) i) "/" 1000) := by
        funext i
        simp [Function.comp, chainFrom_succ_shift]
      rw [List.range_succ_eq_map, List.map_cons, List.map_map, hfun]
      rw [show loopCalls fs bucket pre (k + 1) m =
          BackendCall.fsListObjects bucket pre m "/" 1000 ::
            loopCalls fs bucket pre k (nextMarkerAt fs bucket pre m) from rfl]
      rw [ih (nextMarkerAt fs bucket pre m)]
      rfl

lemma loopResult_ok (fs : Filesystem) (bucket pre : String) :
    ∀ (n : Nat) (m : String) (acc : List ObjectInfo),
      (∀ i, i ≤ n → ∃ lo,
        fs.listObjectsPage bucket pre (chainFrom fs bucket pre m i) =
          Except.ok lo) →
      loopResult fs bucket pre n m acc =
        Except.ok (acc ++ entriesConcat fs bucket pre n m) := by
  intro n
  induction n with
  | zero =>
      intro m acc hok
      obtain ⟨lo, heq⟩ := hok 0 (le_refl 0)
      rw [show chainFrom fs bucket pre m 0 = m from rfl] at heq
      simp [loopResult, heq, entriesConcat, pageEntriesAt]
  | succ k ih =>
      intro m acc hok
      obtain ⟨lo, heq⟩ := hok 0 (by omega)
      rw [show chainFrom fs bucket pre m 0 = m from rfl] at heq
      have hnm : nextMarkerAt fs bucket pre m = lo.NextMarker := by
        simp [nextMarkerAt, heq]
      have hok1 : ∀ i, i ≤ k → ∃ lo1,
          fs.listObjectsPage bucket pre
            (chainFrom fs bucket pre lo.NextMarker i) = Except.ok lo1 := by
        intro i hi
        have h := hok (i + 1) (by omega)
        rwa [chainFrom_succ_shift, hnm] at h
      simp only [loopResult, heq]
      rw [ih lo.NextMarker (acc ++ pageEntries lo) hok1]
      simp [entriesConcat, pageEntriesAt, heq, hnm, List.append_assoc]

lemma entriesConcat_eq_join (fs : Filesystem) (bucket pre : String) :
    ∀ (n : Nat) (m : String),
      entriesConcat fs bucket pre n m =
        ((List.range (n + 1)).map
          (fun i => pageEntriesAt fs bucket pre
            (chainFrom fs bucket pre m i))).flatten := by
  intro n
  induction n with
  | zero =>
      intro m
      simp [entriesConcat, chainFrom, List.range_succ]
  | succ k ih =>
      intro m
      have hfun :
          ((fun i => pageEntriesAt fs bucket pre
              (chainFrom fs bucket pre m i)) ∘ Nat.succ) =
            (fun i => pageEntriesAt fs bucket pre
              (chainFrom fs bucket pre (nextMarkerAt fs bucket pre m) i)) := by
        funext i
        simp [Function.comp, chainFrom_succ_shift]
      rw [List.range_succ_eq_map, List.map_cons, List.map_map, hfun]
      rw [show entriesConcat fs bucket pre (k + 1) m =
          pageEntriesAt fs bucket pre m ++
            entriesConcat fs bucket pre k (nextMarkerAt fs bucket pre m) from rfl]
      rw [ih (nextMarkerAt fs bucket pre m)]
      simp [List.flatten_cons, chainFrom]

lemma listObjects_run_ok (r : Request) (fs : Filesystem) (args : ListObjectsArgs)
    (n fuel : Nat)
    (hauth : isJWTReqAuthenticated r = true)
    (hcont : ∀ i, i < n → continuesAt fs args.BucketName args.PrefixStr
      (chainFrom fs args.BucketName args.PrefixStr "" i) = true)
    (hstop : continuesAt fs args.BucketName args.PrefixStr
      (chainFrom fs args.BucketName args.PrefixStr "" n) = false)
    (hok : ∀ i, i ≤ n → ∃ lo,
      fs.listObjectsPage args.BucketName args.PrefixStr
        (chainFrom fs args.BucketName args.PrefixStr "" i) = Except.ok lo)
    (hfuel : n < fuel) :
    ListObjects r fs args fuel =
      some (Except.ok
          ⟨entriesConcat fs args.BucketName args.PrefixStr n "", UIVersion⟩,
        loopCalls fs args.BucketName args.PrefixStr n "") := by
  unfold ListObjects
  rw [listObjectsLoopFuel_spec fs args.BucketName args.PrefixStr n "" [] [] fuel
    hcont hstop hfuel]
  rw [loopResult_ok fs args.BucketName args.PrefixStr n "" [] hok]
  simp [hauth]

lemma mem_pageEntries {x : ObjectInfo} {lo : ListObjectsResult}
    (hx : x ∈ pageEntries lo) :
    (∃ o, o ∈ lo.Objects ∧ x = ⟨o.Name, o.ModifiedTime, o.Size, ""⟩) ∨
      (∃ s, s ∈ lo.Prefixes ∧ x = ⟨s, 0, 0, ""⟩) := by
  rcases List.mem_append.1 hx with h | h
  · left
    obtain ⟨o, ho, rfl⟩ := List.mem_map.1 h
    exact ⟨o, ho, rfl⟩
  · right
    obtain ⟨s, hs, rfl⟩ := List.mem_map.1 h
    exact ⟨s, hs, rfl⟩

lemma mem_entriesConcat (fs : Filesystem) (bucket pre : String) :
    ∀ (n : Nat) (m : String) (x : ObjectInfo),
      x ∈ entriesConcat fs bucket pre n m →
      ∃ i, i ≤ n ∧ x ∈ pageEntriesAt fs bucket pre (chainFrom fs bucket pre m i) := by
  intro n
  induction n with
  | zero =>
      intro m x hx
      exact ⟨0, le_refl 0, hx⟩
  | succ k ih =>
      intro m x hx
      rcases List.mem_append.1 hx with h | h
      · exact ⟨0, by omega, h⟩
      · obtain ⟨i, hi, hmem⟩ := ih (nextMarkerAt fs bucket pre m) x h
        refine ⟨i + 1, by omega, ?_⟩
        rwa [chainFrom_succ_shift]

/-- A request carrying no parseable token at all. -/
def noTokenReq : Request := ⟨none⟩

/-- A request carrying a fully valid HMAC token. -/
def authedReq : Request := ⟨some ⟨true, true, true⟩⟩

/-- A trivial backend oracle used to instantiate witnesses. -/
def trivialFs : Filesystem where
  diskInfoRes := Except.ok ⟨0, 0⟩
  makeBucketRes := fun _ => none
  listBucketsRes := Except.ok []
  listObjectsPage := fun _ _ _ => Except.ok ⟨false, "", [], []⟩
  deleteObjectRes := fun _ _ => none
  createObjectRes := fun _ _ => Except.ok ()
  getObjectRes := fun _ _ => Except.ok ""

/-- A trivial configuration store used to instantiate witnesses. -/
def trivialCfg : ConfigStore := ⟨⟨"AK", "SK"⟩, true, "save failed"⟩

/-- Claim C1: for every RPC method except Login (ServerInfo, DiskInfo,
MakeBucket, ListBuckets, ListObjects, RemoveObject, GenerateAuth,
SetAuth, GetAuth), a request whose token fails verification returns the
error with message "Unauthorized request" and the backend call log stays
empty (no filesystem, credential-store or token-issuance call, the
configuration store untouched); the outcome is independent of every
backend oracle, so the check precedes every other action of the
method. -/
theorem claim_C1_unauthorized_gate (r : Request)
    (h : isJWTReqAuthenticated r = false)
    (sys : SysInfo) (fs : Filesystem) (cfg : ConfigStore) (gk : credential)
    (gt : String → Except String String) (mba : MakeBucketArgs)
    (loa : ListObjectsArgs) (roa : RemoveObjectArgs) (saa : SetAuthArgs)
    (fuel : Nat) :
    ServerInfo r sys = (.error unauthorizedError, []) ∧
    DiskInfo r fs = (.error unauthorizedError, []) ∧
    MakeBucket r fs mba = (.error unauthorizedError, []) ∧
    ListBuckets r fs = (.error unauthorizedError, []) ∧
    ListObjects r fs loa fuel = some (.error unauthorizedError, []) ∧
    RemoveObject r fs roa = (.error unauthorizedError, []) ∧
    GenerateAuth r gk = (.error unauthorizedError, []) ∧
    SetAuth r cfg gt saa = (.error unauthorizedError, cfg, []) ∧
    GetAuth r cfg = (.error unauthorizedError, []) := by
  refine ⟨?_, ?_, ?_, ?_, ?_, ?_, ?_, ?_, ?_⟩ <;>
    simp [ServerInfo, DiskInfo, MakeBucket, ListBuckets, ListObjects,
      RemoveObject, GenerateAuth, SetAuth, GetAuth, h]

/-- Witness for C1 at a concrete tokenless request and concrete
oracles. -/
theorem claim_C1_unauthorized_gate_witness :
    isJWTReqAuthenticated noTokenReq = false ∧
    (ServerInfo noTokenReq ⟨"v", "m", "p", "g"⟩ = (.error unauthorizedError, []) ∧
     DiskInfo noTokenReq trivialFs = (.error unauthorizedError, []) ∧
     MakeBucket noTokenReq trivialFs ⟨"bk"⟩ = (.error unauthorizedError, []) ∧
     ListBuckets noTokenReq trivialFs = (.error unauthorizedError, []) ∧
     ListObjects noTokenReq trivialFs ⟨"bk", ""⟩ 1 =
       some (.error unauthorizedError, []) ∧
     RemoveObject noTokenReq trivialFs ⟨"h", "bk", "o"⟩ =
       (.error unauthorizedError, []) ∧
     GenerateAuth noTokenReq ⟨"AK2", "SK2"⟩ = (.error unauthorizedError, []) ∧
     SetAuth noTokenReq trivialCfg (fun _ => Except.ok "tok") ⟨"a", "s"⟩ =
       (.error unauthorizedError, trivialCfg, []) ∧
     GetAuth noTokenReq trivialCfg = (.error unauthorizedError, [])) :=
  ⟨rfl, claim_C1_unauthorized_gate noTokenReq rfl ⟨"v", "m", "p", "g"⟩
    trivialFs trivialCfg ⟨"AK2", "SK2"⟩ (fun _ => Except.ok "tok") ⟨"bk"⟩
    ⟨"bk", ""⟩ ⟨"h", "bk", "o"⟩ ⟨"a", "s"⟩ 1⟩

/-- Claim C3: the streaming error translator is total and stable: every
declared backend error variant is written with its fixed non-internal
status and description (stability being determinism of the function);
the invalid-token error is the fixed forbidden 403 response handled
ahead of the variant cases; any other error value yields the
internal-error status and description. -/
theorem claim_C3_translator_total (e : BackendErr)
    (h : e ∈ declaredBackendVariants) :
    ((writeWebErrorResponse e).status ≠
      (getAPIError APIErrorCode.ErrInternalError).httpStatusCode ∧
     (writeWebErrorResponse e).body ≠
      (getAPIError APIErrorCode.ErrInternalError).description) ∧
    writeWebErrorResponse BackendErr.errInvalidToken =
      ⟨403, errInvalidTokenMsg⟩ ∧
    (∀ s, writeWebErrorResponse (BackendErr.other s) =
      ⟨(getAPIError APIErrorCode.ErrInternalError).httpStatusCode,
        (getAPIError APIErrorCode.ErrInternalError).description⟩) := by
  refine ⟨?_, rfl, fun s => rfl⟩
  fin_cases h <;> exact ⟨by decide, by decide⟩

/-- Witness for C3 at the root-path-full variant. -/
theorem claim_C3_translator_total_witness :
    BackendErr.RootPathFull ∈ declaredBackendVariants ∧
    (((writeWebErrorResponse BackendErr.RootPathFull).status ≠
        (getAPIError APIErrorCode.ErrInternalError).httpStatusCode ∧
      (writeWebErrorResponse BackendErr.RootPathFull).body ≠
        (getAPIError APIErrorCode.ErrInternalError).description) ∧
     writeWebErrorResponse BackendErr.errInvalidToken =
       ⟨403, errInvalidTokenMsg⟩ ∧
     (∀ s, writeWebErrorResponse (BackendErr.other s) =
       ⟨(getAPIError APIErrorCode.ErrInternalError).httpStatusCode,
         (getAPIError APIErrorCode.ErrInternalError).description⟩)) :=
  ⟨by decide, claim_C3_translator_total BackendErr.RootPathFull (by decide)⟩

/-- Claim C5: the translator maps the invalid-object-name variant and
the object-not-found variant to the identical client-visible error, the
no-such-key not-found status and description. -/
theorem claim_C5_objectname_alias :
    writeWebErrorResponse BackendErr.ObjectNameInvalid =
      writeWebErrorResponse BackendErr.ObjectNotFound ∧
    writeWebErrorResponse BackendErr.ObjectNotFound =
      ⟨(getAPIError APIErrorCode.ErrNoSuchKey).httpStatusCode,
        (getAPIError APIErrorCode.ErrNoSuchKey).description⟩ :=
  ⟨rfl, rfl⟩

/-- Claim C4: an authenticated SetAuth with an empty access key fails
with "Empty access key not allowed", and with a non-empty access key but
empty secret key fails with the distinct message "Empty secret key not
allowed"; in both cases the configuration store is returned unchanged
and the call log is empty, so no credential mutation or persistence is
attempted. -/
theorem claim_C4_setauth_empty_keys (r : Request) (cfg : ConfigStore)
    (gt : String → Except String String) (a1 a2 : SetAuthArgs)
    (hauth : isJWTReqAuthenticated r = true)
    (h1 : a1.AccessKey = "")
    (h2 : a2.AccessKey ≠ "") (h3 : a2.SecretKey = "") :
    SetAuth r cfg gt a1 =
      (.error ⟨"Empty access key not allowed"⟩, cfg, []) ∧
    SetAuth r cfg gt a2 =
      (.error ⟨"Empty secret key not allowed"⟩, cfg, []) ∧
    ("Empty access key not allowed" : String) ≠
      "Empty secret key not allowed" := by
  refine ⟨?_, ?_, by decide⟩
  · simp [SetAuth, hauth, h1]
  · simp [SetAuth, hauth, h2, h3]

/-- Witness for C4 at a concrete authenticated request. -/
theorem claim_C4_setauth_empty_keys_witness :
    isJWTReqAuthenticated authedReq = true ∧
    (SetAuth authedReq trivialCfg (fun _ => Except.ok "tok") ⟨"", "s"⟩ =
       (.error ⟨"Empty access key not allowed"⟩, trivialCfg, []) ∧
     SetAuth authedReq trivialCfg (fun _ => Except.ok "tok") ⟨"a", ""⟩ =
       (.error ⟨"Empty secret key not allowed"⟩, trivialCfg, []) ∧
     ("Empty access key not allowed" : String) ≠
       "Empty secret key not allowed") :=
  ⟨rfl, claim_C4_setauth_empty_keys authedReq trivialCfg
    (fun _ => Except.ok "tok") ⟨"", "s"⟩ ⟨"a", ""⟩ rfl rfl
    (by decide) rfl⟩

/-- Claim C6: an authenticated ListBuckets over any backend bucket list
never replies with a bucket whose name equals the base path segment of
the reserved internal bucket, even when the backend list includes it,
while every other backend bucket appears in the reply with its name and
creation date. -/
theorem claim_C6_listbuckets_reserved (r : Request) (fs : Filesystem)
    (buckets : List FSBucketInfo)
    (hauth : isJWTReqAuthenticated r = true)
    (hls : fs.listBucketsRes = Except.ok buckets) :
    ∃ rep, ListBuckets r fs = (Except.ok rep, [BackendCall.fsListBuckets]) ∧
      (∀ b, b ∈ rep.Buckets → b.Name ≠ pathBase reservedBucket) ∧
      (∀ fb, fb ∈ buckets → fb.Name ≠ pathBase reservedBucket →
        (⟨fb.Name, fb.Created⟩ : BucketInfo) ∈ rep.Buckets) := by
  refine ⟨⟨(buckets.filter (fun b => b.Name ≠ pathBase reservedBucket)).map
      (fun b => ⟨b.Name, b.Created⟩), UIVersion⟩, ?_, ?_, ?_⟩
  · simp [ListBuckets, hauth, hls]
  · intro b hb
    obtain ⟨fb, hfb, rfl⟩ := List.mem_map.1 hb
    have h := (List.mem_filter.1 hfb).2
    simpa using h
  · intro fb hfb hne
    exact List.mem_map.2 ⟨fb, List.mem_filter.2 ⟨hfb, by simpa using hne⟩, rfl⟩

/-- A backend oracle whose bucket list contains the reserved bucket base
segment plus one ordinary bucket. -/
def reservedFs : Filesystem where
  diskInfoRes := Except.ok ⟨0, 0⟩
  makeBucketRes := fun _ => none
  listBucketsRes := Except.ok [⟨"minio", 7⟩, ⟨"photos", 9⟩]
  listObjectsPage := fun _ _ _ => Except.ok ⟨false, "", [], []⟩
  deleteObjectRes := fun _ _ => none
  createObjectRes := fun _ _ => Except.ok ()
  getObjectRes := fun _ _ => Except.ok ""

/-- Witness for C6 at a backend list that includes the reserved name. -/
theorem claim_C6_listbuckets_reserved_witness :
    isJWTReqAuthenticated authedReq = true ∧
    reservedFs.listBucketsRes = Except.ok [⟨"minio", 7⟩, ⟨"photos", 9⟩] ∧
    (∃ rep, ListBuckets authedReq reservedFs =
        (Except.ok rep, [BackendCall.fsListBuckets]) ∧
      (∀ b, b ∈ rep.Buckets → b.Name ≠ pathBase reservedBucket) ∧
      (∀ fb, fb ∈ [(⟨"minio", 7⟩ : FSBucketInfo), ⟨"photos", 9⟩] →
        fb.Name ≠ pathBase reservedBucket →
        (⟨fb.Name, fb.Created⟩ : BucketInfo) ∈ rep.Buckets)) :=
  ⟨rfl, rfl, claim_C6_listbuckets_reserved authedReq reservedFs
    [⟨"minio", 7⟩, ⟨"photos", 9⟩] rfl rfl⟩

/-- Claim C7: an authenticated SetAuth with non-empty access and secret
keys that succeeds (the save, the re-authentication against the newly
set pair and the token issuance all succeed) leaves the store so that a
subsequent authenticated GetAuth returns exactly the pair just set. -/
theorem claim_C7_setauth_getauth_roundtrip (r1 r2 : Request)
    (cfg : ConfigStore) (gt : String → Except String String)
    (args : SetAuthArgs) (tok : String)
    (h1 : isJWTReqAuthenticated r1 = true)
    (h2 : isJWTReqAuthenticated r2 = true)
    (hak : args.AccessKey ≠ "") (hsk : args.SecretKey ≠ "")
    (hsave : cfg.saveOk = true)
    (htok : gt args.AccessKey = Except.ok tok) :
    ∃ cfg1,
      SetAuth r1 cfg gt args =
        (Except.ok ⟨tok, UIVersion⟩, cfg1,
          [.configSetCredential ⟨args.AccessKey, args.SecretKey⟩, .configSave,
            .jwtAuthenticate args.AccessKey args.SecretKey,
            .jwtGenerateToken args.AccessKey]) ∧
      GetAuth r2 cfg1 =
        (Except.ok ⟨args.AccessKey, args.SecretKey, UIVersion⟩,
          [.configGetCredential]) := by
  refine ⟨{ cfg with cred := ⟨args.AccessKey, args.SecretKey⟩ }, ?_, ?_⟩
  · simp [SetAuth, h1, hak, hsk, hsave, jwtAuthenticate, htok]
  · simp [GetAuth, h2]

/-- Witness for C7 at concrete credentials. -/
theorem claim_C7_setauth_getauth_roundtrip_witness :
    isJWTReqAuthenticated authedReq = true ∧
    trivialCfg.saveOk = true ∧
    (fun _ => Except.ok "tok" : String → Except String String) "newAK" =
      Except.ok "tok" ∧
    (∃ cfg1,
      SetAuth authedReq trivialCfg (fun _ => Except.ok "tok")
          ⟨"newAK", "newSK"⟩ =
        (Except.ok ⟨"tok", UIVersion⟩, cfg1,
          [.configSetCredential ⟨"newAK", "newSK"⟩, .configSave,
            .jwtAuthenticate "newAK" "newSK", .jwtGenerateToken "newAK"]) ∧
      GetAuth authedReq cfg1 =
        (Except.ok ⟨"newAK", "newSK", UIVersion⟩, [.configGetCredential])) :=
  ⟨rfl, rfl, rfl, claim_C7_setauth_getauth_roundtrip authedReq authedReq
    trivialCfg (fun _ => Except.ok "tok") ⟨"newAK", "newSK"⟩ "tok" rfl rfl
    (by decide) (by decide) rfl rfl⟩

/-- Claim C8: both token-verification paths, the header-embedded check
used by the RPC methods and Upload and the query-parameter check used by
Download, reject every token whose declared signing algorithm is outside
the HMAC family, even when the token is otherwise well-formed (valid
claims) and correctly signed under its own algorithm: the RPC gate
reports unauthenticated and both streaming handlers write the fixed
forbidden response without any backend call. -/
theorem claim_C8_reject_non_hmac (t : JWTTokenData) (r : Request)
    (ureq : UploadReq) (dreq : DownloadReq) (fs fs2 : Filesystem)
    (halg : t.algIsHMAC = false)
    (hr : r.headerToken = some t)
    (hu : ureq.headerToken = some t)
    (hd : dreq.queryToken = some t) :
    isJWTReqAuthenticated r = false ∧
    Upload ureq fs = (⟨403, errInvalidTokenMsg⟩, []) ∧
    Download dreq fs2 = (⟨none, 403, errInvalidTokenMsg⟩, []) := by
  have hp : parseTokenValid (some t) = false := by
    simp [parseTokenValid, halg]
  refine ⟨?_, ?_, ?_⟩
  · simp [isJWTReqAuthenticated, hr, hp]
  · simp [Upload, isJWTReqAuthenticated, hu, hp, writeWebErrorResponse]
  · simp [Download, hd, hp, writeWebErrorResponse]

/-- Witness for C8 at a well-formed, correctly signed token declaring a
non-HMAC algorithm. -/
theorem claim_C8_reject_non_hmac_witness :
    (⟨false, true, true⟩ : JWTTokenData).algIsHMAC = false ∧
    (isJWTReqAuthenticated ⟨some ⟨false, true, true⟩⟩ = false ∧
     Upload ⟨some ⟨false, true, true⟩, "bk", "o"⟩ trivialFs =
       (⟨403, errInvalidTokenMsg⟩, []) ∧
     Download ⟨some ⟨false, true, true⟩, "bk", "o"⟩ trivialFs =
       (⟨none, 403, errInvalidTokenMsg⟩, [])) :=
  ⟨rfl, claim_C8_reject_non_hmac ⟨false, true, true⟩
    ⟨some ⟨false, true, true⟩⟩ ⟨some ⟨false, true, true⟩, "bk", "o"⟩
    ⟨some ⟨false, true, true⟩, "bk", "o"⟩ trivialFs trivialFs
    rfl rfl rfl rfl⟩

/-- Claim C2: an authenticated ListObjects whose backend pages all
succeed replies with exactly the concatenation of the pages in the order
pagination returned them, each page contributing its object entries and
its directory-grouping entries as one ordered sequence (pageEntriesAt)
in the order the backend returned them within that page. -/
theorem claim_C2_listobjects_concat (r : Request) (fs : Filesystem)
    (args : ListObjectsArgs) (n fuel : Nat)
    (hauth : isJWTReqAuthenticated r = true)
    (hok : ∀ i, i ≤ n → ∃ lo, fs.listObjectsPage args.BucketName args.PrefixStr
      (chainFrom fs args.BucketName args.PrefixStr "" i) = Except.ok lo)
    (hcont : ∀ i, i < n → continuesAt fs args.BucketName args.PrefixStr
      (chainFrom fs args.BucketName args.PrefixStr "" i) = true)
    (hstop : continuesAt fs args.BucketName args.PrefixStr
      (chainFrom fs args.BucketName args.PrefixStr "" n) = false)
    (hfuel : n < fuel) :
    ∃ calls, ListObjects r fs args fuel =
      some (Except.ok ⟨((List.range (n + 1)).map (fun i =>
          pageEntriesAt fs args.BucketName args.PrefixStr
            (chainFrom fs args.BucketName args.PrefixStr "" i))).flatten,
        UIVersion⟩, calls) := by
  refine ⟨loopCalls fs args.BucketName args.PrefixStr n "", ?_⟩
  rw [listObjects_run_ok r fs args n fuel hauth hcont hstop hok hfuel,
    entriesConcat_eq_join]

/-- A two-page backend oracle: the first page is truncated with
continuation marker m1, the second page at m1 is final. -/
def pagedFs : Filesystem where
  diskInfoRes := Except.ok ⟨0, 0⟩
  makeBucketRes := fun _ => none
  listBucketsRes := Except.ok []
  listObjectsPage := fun _ _ m =>
    if m = "" then Except.ok ⟨true, "m1", [⟨"a", 1, 2, "x"⟩], ["d/"]⟩
    else Except.ok ⟨false, "", [⟨"b", 3, 4, "y"⟩], []⟩
  deleteObjectRes := fun _ _ => none
  createObjectRes := fun _ _ => Except.ok ()
  getObjectRes := fun _ _ => Except.ok ""

/-- Witness for C2 on the two-page backend. -/
theorem claim_C2_listobjects_concat_witness :
    isJWTReqAuthenticated authedReq = true ∧
    (∃ calls, ListObjects authedReq pagedFs ⟨"bk", ""⟩ 2 =
      some (Except.ok ⟨((List.range 2).map (fun i =>
          pageEntriesAt pagedFs "bk" ""
            (chainFrom pagedFs "bk" "" "" i))).flatten,
        UIVersion⟩, calls)) :=
  ⟨rfl, claim_C2_listobjects_concat authedReq pagedFs ⟨"bk", ""⟩ 1 2 rfl
    (fun i hi => by interval_cases i <;> exact ⟨_, rfl⟩)
    (fun i hi => by interval_cases i; rfl)
    rfl (by decide)⟩

/-- Claim C10: the pagination loop requests page i at the marker the
previous page returned (the continuation-marker chain) and terminates
exactly at the first page the backend reports as not truncated: when
page n is reported ok and non-truncated after n truncated pages, any
fuel above n completes with exactly the n+1 chained page requests as the
call log. -/
theorem claim_C10_pagination_terminates (r : Request) (fs : Filesystem)
    (args : ListObjectsArgs) (n fuel : Nat) (lo : ListObjectsResult)
    (hauth : isJWTReqAuthenticated r = true)
    (hcont : ∀ i, i < n → continuesAt fs args.BucketName args.PrefixStr
      (chainFrom fs args.BucketName args.PrefixStr "" i) = true)
    (hlast : fs.listObjectsPage args.BucketName args.PrefixStr
      (chainFrom fs args.BucketName args.PrefixStr "" n) = Except.ok lo)
    (hnt : lo.IsTruncated = false)
    (hfuel : n < fuel) :
    ∃ res, ListObjects r fs args fuel = some (res,
      (List.range (n + 1)).map (fun i => BackendCall.fsListObjects
        args.BucketName args.PrefixStr
        (chainFrom fs args.BucketName args.PrefixStr "" i) "/" 1000)) := by
  have hstop : continuesAt fs args.BucketName args.PrefixStr
      (chainFrom fs args.BucketName args.PrefixStr "" n) = false := by
    simp [continuesAt, hlast, hnt]
  unfold ListObjects
  rw [listObjectsLoopFuel_spec fs args.BucketName args.PrefixStr n "" [] [] fuel
    hcont hstop hfuel]
  rw [loopCalls_eq_map]
  cases hres : loopResult fs args.BucketName args.PrefixStr n "" [] with
  | error e => exact ⟨Except.error e, by simp [hauth]⟩
  | ok objs => exact ⟨Except.ok ⟨objs, UIVersion⟩, by simp [hauth]⟩

/-- Witness for C10 on the two-page backend. -/
theorem claim_C10_pagination_terminates_witness :
    isJWTReqAuthenticated authedReq = true ∧
    pagedFs.listObjectsPage "bk" "" (chainFrom pagedFs "bk" "" "" 1) =
      Except.ok ⟨false, "", [⟨"b", 3, 4, "y"⟩], []⟩ ∧
    (∃ res, ListObjects authedReq pagedFs ⟨"bk", ""⟩ 2 = some (res,
      (List.range 2).map (fun i => BackendCall.fsListObjects "bk" ""
        (chainFrom pagedFs "bk" "" "" i) "/" 1000))) :=
  ⟨rfl, rfl, claim_C10_pagination_terminates authedReq pagedFs ⟨"bk", ""⟩ 1 2
    ⟨false, "", [⟨"b", 3, 4, "y"⟩], []⟩ rfl
    (fun i hi => by interval_cases i; rfl) rfl rfl (by decide)⟩

/-- A single-page backend oracle whose one object carries a non-empty
backend content type. -/
def c9Fs : Filesystem where
  diskInfoRes := Except.ok ⟨0, 0⟩
  makeBucketRes := fun _ => none
  listBucketsRes := Except.ok []
  listObjectsPage := fun _ _ _ =>
    Except.ok ⟨false, "", [⟨"a", 1, 2, "text/plain"⟩], ["d/"]⟩
  deleteObjectRes := fun _ _ => none
  createObjectRes := fun _ _ => Except.ok ()
  getObjectRes := fun _ _ => Except.ok ""

/-- Counterexample to claim C9 as stated: the backend object at key "a"
has content type "text/plain", yet the reply entry for it carries the
zero-valued content type "" — the handler populates Key, LastModified
and Size only, so the entry the claim demands, with the backend content
type, differs from the entry actually produced. -/
theorem claim_C9_counterexample :
    ListObjects authedReq c9Fs ⟨"bk", ""⟩ 1 =
      some (Except.ok ⟨[⟨"a", 1, 2, ""⟩, ⟨"d/", 0, 0, ""⟩], UIVersion⟩,
        [BackendCall.fsListObjects "bk" "" "" "/" 1000]) ∧
    (⟨"a", 1, 2, ""⟩ : ObjectInfo) ≠ ⟨"a", 1, 2, "text/plain"⟩ :=
  ⟨rfl, by decide⟩

/-- Claim C9 as amended: in every ListObjects reply, a directory
grouping entry has only its key populated, with lastModified, size and
contentType zero-valued, while every non-directory object entry is
populated from the backend object's key, lastModified and size, its
contentType left zero-valued as well. -/
theorem claim_C9_amended_entry_shapes (r : Request) (fs : Filesystem)
    (args : ListObjectsArgs) (n fuel : Nat)
    (hauth : isJWTReqAuthenticated r = true)
    (hok : ∀ i, i ≤ n → ∃ lo, fs.listObjectsPage args.BucketName args.PrefixStr
      (chainFrom fs args.BucketName args.PrefixStr "" i) = Except.ok lo)
    (hcont : ∀ i, i < n → continuesAt fs args.BucketName args.PrefixStr
      (chainFrom fs args.BucketName args.PrefixStr "" i) = true)
    (hstop : continuesAt fs args.BucketName args.PrefixStr
      (chainFrom fs args.BucketName args.PrefixStr "" n) = false)
    (hfuel : n < fuel) :
    ∃ rep calls, ListObjects r fs args fuel = some (Except.ok rep, calls) ∧
      ∀ x, x ∈ rep.Objects →
        (∃ i lo o, i ≤ n ∧
          fs.listObjectsPage args.BucketName args.PrefixStr
            (chainFrom fs args.BucketName args.PrefixStr "" i) = Except.ok lo ∧
          o ∈ lo.Objects ∧
          x = ⟨o.Name, o.ModifiedTime, o.Size, ""⟩) ∨
        (∃ i lo s, i ≤ n ∧
          fs.listObjectsPage args.BucketName args.PrefixStr
            (chainFrom fs args.BucketName args.PrefixStr "" i) = Except.ok lo ∧
          s ∈ lo.Prefixes ∧
          x = ⟨s, 0, 0, ""⟩) := by
  refine ⟨_, _,
    listObjects_run_ok r fs args n fuel hauth hcont hstop hok hfuel, ?_⟩
  intro x hx
  obtain ⟨i, hi, hmem⟩ :=
    mem_entriesConcat fs args.BucketName args.PrefixStr n "" x hx
  obtain ⟨lo, hlo⟩ := hok i hi
  simp only [pageEntriesAt, hlo] at hmem
  rcases mem_pageEntries hmem with ⟨o, ho, rfl⟩ | ⟨s, hs, rfl⟩
  · exact Or.inl ⟨i, lo, o, hi, hlo, ho, rfl⟩
  · exact Or.inr ⟨i, lo, s, hi, hlo, hs, rfl⟩

/-- Witness for the amended C9 on the two-page backend. -/
theorem claim_C9_amended_entry_shapes_witness :
    isJWTReqAuthenticated authedReq = true ∧
    (∃ rep calls,
      ListObjects authedReq pagedFs ⟨"bk", ""⟩ 2 =
        some (Except.ok rep, calls) ∧
      ∀ x, x ∈ rep.Objects →
        (∃ i lo o, i ≤ 1 ∧
          pagedFs.listObjectsPage "bk" ""
            (chainFrom pagedFs "bk" "" "" i) = Except.ok lo ∧
          o ∈ lo.Objects ∧
          x = ⟨o.Name, o.ModifiedTime, o.Size, ""⟩) ∨
        (∃ i lo s, i ≤ 1 ∧
          pagedFs.listObjectsPage "bk" ""
            (chainFrom pagedFs "bk" "" "" i) = Except.ok lo ∧
          s ∈ lo.Prefixes ∧
          x = ⟨s, 0, 0, ""⟩)) :=
  ⟨rfl, claim_C9_amended_entry_shapes authedReq pagedFs ⟨"bk", ""⟩ 1 2 rfl
    (fun i hi => by interval_cases i <;> exact ⟨_, rfl⟩)
    (fun i hi => by interval_cases i; rfl)
    rfl (by decide)⟩

end Minio
